import Mathlib

/-!
Shallow embedding of the portfolio single-page application in `src/App.tsx`
(the current variant of the file, whose line numbers the section references
below follow).

Modelling conventions:
- GitHub timestamps are carried through the code only via
  `new Date(s).getTime()`, so `created_at` / `updated_at` are embedded
  directly as the integer epoch-millisecond value that call returns
  (ISO-8601 UTC strings are order-isomorphic to those values).
- JavaScript `Set<string>` accumulation is embedded as `Finset String`;
  the program only ever consumes the set through membership queries.
- The `async` control flow of `fetchGitHubData` is embedded twice: as a
  pure state transformer over the fetch outcomes (for the state-machine
  claims) and as an event trace (for the sequencing claim).
-/

/-- The `Repository` record shape of `App.tsx` (lines 422-435). -/
structure Repository where
  id : Nat
  name : String
  description : Option String
  html_url : String
  homepage : Option String
  topics : List String
  language : Option String
  stargazers_count : Nat
  forks_count : Nat
  created_at : Int
  updated_at : Int
  archived : Bool
deriving DecidableEq

/-- The `GitHubUser` record shape of `App.tsx` (lines 437-448). -/
structure GitHubUser where
  login : String
  name : String
  bio : Option String
  location : Option String
  blog : Option String
  followers : Nat
  following : Nat
  public_repos : Nat
  avatar_url : String
  html_url : String
deriving DecidableEq

/-- The sort comparator of `fetchGitHubData` (lines 474-480):
`b.stargazers_count - a.stargazers_count || (new Date(b.updated_at)).getTime() - (new Date(a.updated_at)).getTime()`,
where JavaScript `x || y` returns `x` unless `x` is `0`. -/
def repoCompare (a b : Repository) : Int :=
  let starDiff : Int := (b.stargazers_count : Int) - (a.stargazers_count : Int)
  if starDiff ≠ 0 then starDiff else b.updated_at - a.updated_at

/-- A comparator result `≤ 0` means `a` may be placed before `b`; JavaScript
`Array.prototype.sort` with a consistent comparator is a stable sort w.r.t.
this boolean relation. -/
def repoLe (a b : Repository) : Bool :=
  decide (repoCompare a b ≤ 0)

/-- The repository pipeline of `fetchGitHubData` (lines 472-480): drop
archived repositories, then stable-sort by the composite comparator. -/
def filteredRepos (reposData : List Repository) : List Repository :=
  (reposData.filter (fun repo => !repo.archived)).mergeSort repoLe

/-- The featured-project allow-list of `Projects` (lines 1010-1015). -/
def featuredProjects : List String :=
  ["qr-studio", "smart-brain", "react-music-player", "dapp-chat"]

/-- The featured view of `Projects` (lines 1017-1019). -/
def featured (repositories : List Repository) : List Repository :=
  repositories.filter (fun repo => featuredProjects.contains repo.name)

/-- The other view of `Projects` (lines 1021-1027): non-featured,
non-self repositories, truncated to 6. -/
def otherView (repositories : List Repository) : List Repository :=
  (repositories.filter (fun repo =>
    !featuredProjects.contains repo.name && repo.name != "adam-olser.github.io")).take 6

/-- The `topicMap` lookup table of `About` (lines 708-746); a missing key
(JavaScript `undefined`) is `none`. -/
def topicMap (topic : String) : Option String :=
  match topic with
  | "react" => some "React.js"
  | "reactjs" => some "React.js"
  | "typescript" => some "TypeScript"
  | "javascript" => some "JavaScript"
  | "nodejs" => some "Node.js"
  | "node-js" => some "Node.js"
  | "python" => some "Python"
  | "docker" => some "Docker"
  | "kubernetes" => some "Kubernetes"
  | "aws" => some "AWS"
  | "gcp" => some "Google Cloud"
  | "postgresql" => some "PostgreSQL"
  | "mysql" => some "MySQL"
  | "redis" => some "Redis"
  | "graphql" => some "GraphQL"
  | "rest-api" => some "REST APIs"
  | "restful-api" => some "REST APIs"
  | "jwt" => some "JWT"
  | "oauth" => some "OAuth 2.0"
  | "oauth2" => some "OAuth 2.0"
  | "tailwindcss" => some "Tailwind CSS"
  | "tailwind-css" => some "Tailwind CSS"
  | "tailwind" => some "Tailwind CSS"
  | "nextjs" => some "Next.js"
  | "next-js" => some "Next.js"
  | "jest" => some "Jest/Cypress"
  | "cypress" => some "Jest/Cypress"
  | "testing" => some "Jest/Cypress"
  | "webpack" => some "Webpack/Vite"
  | "vite" => some "Webpack/Vite"
  | "sass" => some "CSS/SCSS"
  | "scss" => some "CSS/SCSS"
  | "css" => some "CSS/SCSS"
  | "github-actions" => some "GitHub Actions"
  | "ci-cd" => some "GitHub Actions"
  | "eslint" => some "ESLint/Prettier"
  | "prettier" => some "ESLint/Prettier"
  | _ => none

/-- One step of the `repos.reduce` accumulator of `About` (lines 704-750):
add the primary language verbatim if present, then add the canonical name of
every topic that `topicMap` knows. -/
def addRepoTechs (acc : Finset String) (repo : Repository) : Finset String :=
  let acc1 := match repo.language with
    | some lang => insert lang acc
    | none => acc
  repo.topics.foldl (fun a topic =>
    match topicMap topic with
    | some skill => insert skill a
    | none => a) acc1

/-- The `repoLanguages` set of `About` (lines 704-750): the reduce over all
repositories starting from the empty set. -/
def repoLanguages (repos : List Repository) : Finset String :=
  repos.foldl addRepoTechs ∅

/-- One skill entry of the catalog in `getSkillCategories`. -/
structure Skill where
  name : String
  years : Nat
  level : String
  fromRepo : Bool
deriving DecidableEq

/-- One category of the catalog in `getSkillCategories`. -/
structure SkillCategory where
  category : String
  skills : List Skill
deriving DecidableEq

/-- The `getSkillCategories` catalog of `About` (lines 765-926), with the
`repoLanguages` set it closes over made an explicit parameter. -/
def getSkillCategories (repoLangs : Finset String) : List SkillCategory :=
  [ { category := "Frontend & Testing",
      skills :=
        [ { name := "JavaScript", years := 6, level := "Expert",
            fromRepo := decide ("JavaScript" ∈ repoLangs) },
          { name := "TypeScript", years := 5, level := "Advanced",
            fromRepo := decide ("TypeScript" ∈ repoLangs) },
          { name := "React.js", years := 6, level := "Expert",
            fromRepo := decide ("React.js" ∈ repoLangs) },
          { name := "Next.js", years := 3, level := "Advanced", fromRepo := false },
          { name := "CSS/SCSS", years := 6, level := "Advanced",
            fromRepo := decide ("CSS" ∈ repoLangs) || decide ("SCSS" ∈ repoLangs) },
          { name := "Jest/Cypress", years := 4, level := "Advanced", fromRepo := false },
          { name := "Webpack/Vite", years := 4, level := "Advanced", fromRepo := false },
          { name := "Tailwind CSS", years := 2, level := "Intermediate", fromRepo := false },
          { name := "Storybook", years := 2, level := "Intermediate", fromRepo := false } ] },
    { category := "Backend & APIs",
      skills :=
        [ { name := "GraphQL", years := 4, level := "Advanced",
            fromRepo := decide ("GraphQL" ∈ repoLangs) },
          { name := "REST APIs", years := 6, level := "Expert",
            fromRepo := decide ("REST APIs" ∈ repoLangs) },
          { name := "Node.js", years := 4, level := "Intermediate",
            fromRepo := decide ("Node.js" ∈ repoLangs) },
          { name := "Python", years := 3, level := "Intermediate",
            fromRepo := decide ("Python" ∈ repoLangs) },
          { name := "OAuth 2.0", years := 3, level := "Advanced",
            fromRepo := decide ("OAuth 2.0" ∈ repoLangs) },
          { name := "JWT", years := 3, level := "Advanced",
            fromRepo := decide ("JWT" ∈ repoLangs) },
          { name := "PostgreSQL", years := 4, level := "Advanced",
            fromRepo := decide ("PostgreSQL" ∈ repoLangs) },
          { name := "Redis", years := 2, level := "Intermediate",
            fromRepo := decide ("Redis" ∈ repoLangs) } ] },
    { category := "Infrastructure & Security",
      skills :=
        [ { name := "AWS/GCP", years := 3, level := "Intermediate",
            fromRepo := decide ("AWS" ∈ repoLangs) || decide ("Google Cloud" ∈ repoLangs) },
          { name := "Docker", years := 3, level := "Advanced",
            fromRepo := decide ("Docker" ∈ repoLangs) },
          { name := "Kubernetes", years := 2, level := "Intermediate",
            fromRepo := decide ("Kubernetes" ∈ repoLangs) },
          { name := "Payment Systems", years := 3, level := "Advanced", fromRepo := false },
          { name := "PCI DSS", years := 2, level := "Intermediate", fromRepo := false },
          { name := "GitHub Actions", years := 3, level := "Advanced", fromRepo := false } ] },
    { category := "Development Tools",
      skills :=
        [ { name := "Git", years := 6, level := "Expert", fromRepo := true },
          { name := "ESLint/Prettier", years := 4, level := "Advanced", fromRepo := false },
          { name := "Postman", years := 4, level := "Advanced", fromRepo := false },
          { name := "Figma", years := 3, level := "Intermediate", fromRepo := false } ] } ]

/-- The state triple of the `App` component (lines 450-453). -/
structure AppState where
  repositories : List Repository
  user : Option GitHubUser
  loading : Bool
deriving DecidableEq

/-- The initial `useState` values (lines 451-453): empty repositories, no
user, `loading = true`. -/
def initialState : AppState :=
  { repositories := [], user := none, loading := true }

/-- The state effect of one run of `fetchGitHubData` (lines 456-488), as a
function of the two fetch outcomes. The two awaits are sequential: a
rejected profile fetch aborts the cycle before the repository fetch is
issued; the `catch` only logs; the `finally` sets `loading` to `false`
unconditionally. -/
def fetchGitHubData (s : AppState) (userResult : Except String GitHubUser)
    (reposResult : Except String (List Repository)) : AppState :=
  match userResult with
  | Except.error _ => { s with loading := false }
  | Except.ok userData =>
    let s1 := { s with user := some userData }
    match reposResult with
    | Except.error _ => { s1 with loading := false }
    | Except.ok reposData =>
      { s1 with repositories := filteredRepos reposData, loading := false }

/-- What `App` renders (lines 512-555): the loading screen while
`loading` is true, otherwise the main page; there is no error screen. -/
inductive Screen where
  | loadingScreen : Screen
  | mainScreen : Option GitHubUser → List Repository → Screen
deriving DecidableEq

/-- The render branch of `App` (lines 512-555). -/
def render (s : AppState) : Screen :=
  if s.loading then Screen.loadingScreen
  else Screen.mainScreen s.user s.repositories

/-- The observable events of one run of `fetchGitHubData` (lines 456-488). -/
inductive FetchEvent where
  | requestUser : FetchEvent
  | resolveUser : FetchEvent
  | rejectUser : FetchEvent
  | setUserEv : FetchEvent
  | requestRepos : FetchEvent
  | resolveRepos : FetchEvent
  | rejectRepos : FetchEvent
  | setReposEv : FetchEvent
  | logError : FetchEvent
  | setLoadingFalse : FetchEvent
deriving DecidableEq

/-- The event trace of one run of `fetchGitHubData` (lines 456-488), indexed
by whether each network call succeeds. The body awaits the profile fetch
(and parses it, and stores the user) before the repository fetch is even
issued; any rejection jumps to the `catch` (log) and then the `finally`. -/
def fetchTrace (userOk reposOk : Bool) : List FetchEvent :=
  if userOk then
    FetchEvent.requestUser :: FetchEvent.resolveUser :: FetchEvent.setUserEv ::
      (if reposOk then
        [FetchEvent.requestRepos, FetchEvent.resolveRepos, FetchEvent.setReposEv,
         FetchEvent.setLoadingFalse]
      else
        [FetchEvent.requestRepos, FetchEvent.rejectRepos, FetchEvent.logError,
         FetchEvent.setLoadingFalse])
  else
    [FetchEvent.requestUser, FetchEvent.rejectUser, FetchEvent.logError,
     FetchEvent.setLoadingFalse]

/-! ## Properties of the comparator -/

/-- The relation `repoLe a b` holds exactly when the composite key of `a`
(stars descending, then update time descending) is at least as large as the
composite key of `b`. -/
lemma repoLe_iff (a b : Repository) :
    repoLe a b = true ↔
      (b.stargazers_count < a.stargazers_count ∨
        (a.stargazers_count = b.stargazers_count ∧ b.updated_at ≤ a.updated_at)) := by
  simp only [repoLe, repoCompare, decide_eq_true_eq]
  split_ifs with h <;> omega

lemma repoLe_trans (a b c : Repository) :
    repoLe a b → repoLe b c → repoLe a c := by
  simp only [repoLe_iff]
  omega

lemma repoLe_total (a b : Repository) : repoLe a b || repoLe b a := by
  simp only [Bool.or_eq_true, repoLe_iff]
  omega

/-- A concrete repository record used by witness statements. -/
def sampleRepo (id : Nat) (name : String) (stars : Nat) (upd : Int) (arch : Bool) :
    Repository :=
  { id := id, name := name, description := none, html_url := "", homepage := none,
    topics := [], language := none, stargazers_count := stars, forks_count := 0,
    created_at := 0, updated_at := upd, archived := arch }

/-! ## Claims about the repository pipeline

The scoped list notations `<+` (sublist), `<+~` (subpermutation) and `~`
(permutation) are used in the theorems below. -/

open List

/-- C3: in the output of the Repository Pipeline, whenever repository `a` appears
before repository `b`, either `a` has strictly more stars, or they have equal
stars and the last-update timestamp of `a` is at least that of `b`. -/
theorem filteredRepos_sorted (reposData : List Repository) :
    (filteredRepos reposData).Pairwise (fun a b =>
      a.stargazers_count > b.stargazers_count ∨
        (a.stargazers_count = b.stargazers_count ∧ a.updated_at ≥ b.updated_at)) := by
  have h := @List.sorted_mergeSort Repository repoLe repoLe_trans repoLe_total
    (reposData.filter (fun repo => !repo.archived))
  exact h.imp (fun hab => (repoLe_iff _ _).mp hab)

/-- C4: the sort of the Repository Pipeline is stable: two repositories with equal
star count and equal last-update timestamp that both survive the archived
filter keep their relative input order in the output. -/
theorem filteredRepos_stable (reposData : List Repository) (a b : Repository)
    (hsub : [a, b] <+ reposData)
    (ha : a.archived = false) (hb : b.archived = false)
    (hstars : a.stargazers_count = b.stargazers_count)
    (hupd : a.updated_at = b.updated_at) :
    [a, b] <+ filteredRepos reposData := by
  rw [filteredRepos]
  apply List.pair_sublist_mergeSort repoLe_trans repoLe_total
  · rw [repoLe_iff]
    omega
  · have h2 := hsub.filter (fun repo => !repo.archived)
    rwa [show ([a, b].filter (fun repo => !repo.archived)) = [a, b] by
      simp [ha, hb]] at h2

/-- Witness for C4 at a concrete input: two distinct non-archived
repositories with equal keys keep their order. -/
theorem filteredRepos_stable_witness :
    [sampleRepo 1 "alpha" 5 100 false, sampleRepo 2 "beta" 5 100 false] <+
      filteredRepos [sampleRepo 1 "alpha" 5 100 false, sampleRepo 2 "beta" 5 100 false] :=
  filteredRepos_stable _ _ _ (List.Sublist.refl _) rfl rfl rfl rfl

/-- C5: the output of the Repository Pipeline contains no archived repository,
and the empty input yields the empty output. -/
theorem filteredRepos_excludes_archived (reposData : List Repository) :
    (filteredRepos reposData).countP (fun repo => repo.archived) = 0 ∧
      filteredRepos [] = [] := by
  refine ⟨?_, by simp [filteredRepos]⟩
  rw [filteredRepos, (List.mergeSort_perm _ _).countP_eq, List.countP_filter]
  simp

/-- C6: the length of the Other view is the minimum of 6 and the number of
repositories that are neither in the featured allow-list nor the
self-hosting repository. -/
theorem otherView_length (repositories : List Repository) :
    (otherView repositories).length =
      min 6 (repositories.filter (fun repo =>
        !featuredProjects.contains repo.name &&
          repo.name != "adam-olser.github.io")).length := by
  simp [otherView]

/-- C10: the Repository Pipeline only removes and reorders records: its
output is a permutation of a sublist of the input, so every output element
is one of the input repository records with every field unchanged. -/
theorem filteredRepos_subperm (reposData : List Repository) :
    filteredRepos reposData <+~ reposData :=
  ⟨reposData.filter (fun repo => !repo.archived),
    (List.mergeSort_perm _ _).symm, List.filter_sublist _⟩

/-! ## Claims about the technology detector -/

/-- Membership in the inner fold of `addRepoTechs` over the topic tags. -/
lemma mem_topicsFold (x : String) (topics : List String) (acc : Finset String) :
    x ∈ topics.foldl (fun a topic =>
      match topicMap topic with
      | some skill => insert skill a
      | none => a) acc ↔ x ∈ acc ∨ ∃ t ∈ topics, topicMap t = some x := by
  induction topics generalizing acc with
  | nil => simp
  | cons t ts ih =>
    cases h : topicMap t with
    | none =>
      simp only [List.foldl_cons, h, ih, List.mem_cons]
      constructor
      · rintro (hx | hex)
        · exact Or.inl hx
        · exact Or.inr (by obtain ⟨u, hu, hmap⟩ := hex; exact ⟨u, Or.inr hu, hmap⟩)
      · rintro (hx | ⟨u, rfl | hu, hmap⟩)
        · exact Or.inl hx
        · rw [h] at hmap; cases hmap
        · exact Or.inr ⟨u, hu, hmap⟩
    | some s =>
      simp only [List.foldl_cons, h, ih, Finset.mem_insert, List.mem_cons]
      constructor
      · rintro ((rfl | hx) | hex)
        · exact Or.inr ⟨t, Or.inl rfl, by rw [h]⟩
        · exact Or.inl hx
        · exact Or.inr (by obtain ⟨u, hu, hmap⟩ := hex; exact ⟨u, Or.inr hu, hmap⟩)
      · rintro (hx | ⟨u, rfl | hu, hmap⟩)
        · exact Or.inl (Or.inr hx)
        · rw [h] at hmap; exact Or.inl (Or.inl (Option.some.inj hmap).symm)
        · exact Or.inr ⟨u, hu, hmap⟩

/-- What one repository contributes through `addRepoTechs`: its verbatim
primary language, plus the canonical names of its mapped topics. -/
lemma mem_addRepoTechs (x : String) (acc : Finset String) (repo : Repository) :
    x ∈ addRepoTechs acc repo ↔
      x ∈ acc ∨ repo.language = some x ∨ ∃ t ∈ repo.topics, topicMap t = some x := by
  cases hl : repo.language with
  | none => simp [addRepoTechs, hl, mem_topicsFold]
  | some lang =>
    simp only [addRepoTechs, hl, mem_topicsFold, Finset.mem_insert, Option.some.injEq]
    constructor
    · rintro ((rfl | hx) | hex)
      · exact Or.inr (Or.inl rfl)
      · exact Or.inl hx
      · exact Or.inr (Or.inr hex)
    · rintro (hx | rfl | hex)
      · exact Or.inl (Or.inr hx)
      · exact Or.inl (Or.inl rfl)
      · exact Or.inr hex

/-- Membership in the outer fold of `repoLanguages`. -/
lemma mem_repoLanguages_foldl (x : String) (repos : List Repository)
    (acc : Finset String) :
    x ∈ repos.foldl addRepoTechs acc ↔
      x ∈ acc ∨ ∃ r ∈ repos,
        (r.language = some x ∨ ∃ t ∈ r.topics, topicMap t = some x) := by
  induction repos generalizing acc with
  | nil => simp
  | cons r rs ih =>
    simp only [List.foldl_cons, ih, mem_addRepoTechs, List.mem_cons]
    constructor
    · rintro ((hx | hr) | ⟨u, hu, hP⟩)
      · exact Or.inl hx
      · exact Or.inr ⟨r, Or.inl rfl, hr⟩
      · exact Or.inr ⟨u, Or.inr hu, hP⟩
    · rintro (hx | ⟨u, rfl | hu, hP⟩)
      · exact Or.inl (Or.inl hx)
      · exact Or.inl (Or.inr hP)
      · exact Or.inr ⟨u, hu, hP⟩

/-- C7: the Technology Detector is order-independent: permuting the input
repository sequence yields an identical `DetectedTechnologySet`. -/
theorem repoLanguages_perm_invariant (repos1 repos2 : List Repository)
    (h : repos1 ~ repos2) : repoLanguages repos1 = repoLanguages repos2 := by
  ext x
  simp only [repoLanguages, mem_repoLanguages_foldl, Finset.not_mem_empty, false_or]
  exact ⟨fun ⟨r, hr, hP⟩ => ⟨r, h.mem_iff.mp hr, hP⟩,
    fun ⟨r, hr, hP⟩ => ⟨r, h.mem_iff.mpr hr, hP⟩⟩

/-- Witness for C7 at a concrete input: swapping two repositories leaves the
detected set unchanged. -/
theorem repoLanguages_perm_invariant_witness :
    repoLanguages
        [{ sampleRepo 1 "a" 0 0 false with topics := ["react"] },
         { sampleRepo 2 "b" 1 0 false with language := some "Python" }] =
      repoLanguages
        [{ sampleRepo 2 "b" 1 0 false with language := some "Python" },
         { sampleRepo 1 "a" 0 0 false with topics := ["react"] }] :=
  repoLanguages_perm_invariant _ _ (List.Perm.swap _ _ _)

/-! ## Claims about the skill categorizer -/

/-- The display shape of a category: its title together with the
name, years and level of each skill — everything except the evidenced flag. -/
def categoryShape (c : SkillCategory) : String × List (String × Nat × String) :=
  (c.category, c.skills.map (fun k => (k.name, k.years, k.level)))

/-- C8: for every detected-technology set, the Skill Categorizer returns
exactly 4 categories with the same fixed titles, skill names, years, levels
and per-category counts; only the `fromRepo` flag of each entry can depend on the
detected set. -/
theorem getSkillCategories_fixed (repoLangs : Finset String) :
    (getSkillCategories repoLangs).length = 4 ∧
      (getSkillCategories repoLangs).map categoryShape =
        [("Frontend & Testing",
          [("JavaScript", 6, "Expert"), ("TypeScript", 5, "Advanced"),
           ("React.js", 6, "Expert"), ("Next.js", 3, "Advanced"),
           ("CSS/SCSS", 6, "Advanced"), ("Jest/Cypress", 4, "Advanced"),
           ("Webpack/Vite", 4, "Advanced"), ("Tailwind CSS", 2, "Intermediate"),
           ("Storybook", 2, "Intermediate")]),
         ("Backend & APIs",
          [("GraphQL", 4, "Advanced"), ("REST APIs", 6, "Expert"),
           ("Node.js", 4, "Intermediate"), ("Python", 3, "Intermediate"),
           ("OAuth 2.0", 3, "Advanced"), ("JWT", 3, "Advanced"),
           ("PostgreSQL", 4, "Advanced"), ("Redis", 2, "Intermediate")]),
         ("Infrastructure & Security",
          [("AWS/GCP", 3, "Intermediate"), ("Docker", 3, "Advanced"),
           ("Kubernetes", 2, "Intermediate"), ("Payment Systems", 3, "Advanced"),
           ("PCI DSS", 2, "Intermediate"), ("GitHub Actions", 3, "Advanced")]),
         ("Development Tools",
          [("Git", 6, "Expert"), ("ESLint/Prettier", 4, "Advanced"),
           ("Postman", 4, "Advanced"), ("Figma", 3, "Intermediate")])] :=
  ⟨rfl, rfl⟩

/-- C1 counterexample: feed the detector one repository tagged `nextjs`, so
the canonical name `Next.js` is in the detected set; the `Next.js` catalog
entry nevertheless has `fromRepo = false`, refuting the claimed equivalence
between the evidenced flag and set membership. -/
theorem skillEvidence_claim_fails :
    "Next.js" ∈ repoLanguages
        [{ sampleRepo 1 "blog" 0 0 false with topics := ["nextjs"] }] ∧
      ∃ c ∈ getSkillCategories
          (repoLanguages [{ sampleRepo 1 "blog" 0 0 false with topics := ["nextjs"] }]),
        ∃ k ∈ c.skills, k.name = "Next.js" ∧ k.fromRepo = false := by
  decide

/-- The evidencing rule the code actually implements, keyed by skill name:
`Git` is always evidenced; `CSS/SCSS` consults membership of `CSS` or `SCSS`
(component names, not its own canonical name); `AWS/GCP` likewise consults
`AWS` or `Google Cloud`; thirteen entries consult their own canonical name;
the remaining eleven entries are hardwired unevidenced. -/
def evidencedRule (repoLangs : Finset String) (name : String) : Bool :=
  if name = "Git" then true
  else if name = "CSS/SCSS" then
    decide ("CSS" ∈ repoLangs) || decide ("SCSS" ∈ repoLangs)
  else if name = "AWS/GCP" then
    decide ("AWS" ∈ repoLangs) || decide ("Google Cloud" ∈ repoLangs)
  else if name ∈ ["JavaScript", "TypeScript", "React.js", "GraphQL", "REST APIs",
      "Node.js", "Python", "OAuth 2.0", "JWT", "PostgreSQL", "Redis", "Docker",
      "Kubernetes"] then
    decide (name ∈ repoLangs)
  else false

/-- C1 amended: the `fromRepo` flag of every catalog entry equals `evidencedRule`
applied to its name — membership of the canonical name for thirteen entries,
component-name membership for `CSS/SCSS` and `AWS/GCP`, constant `true` for
`Git`, and constant `false` for the other eleven entries (even when their
canonical name is detected). In particular, with an empty detected set every
entry is unevidenced except `Git`. -/
theorem skillEvidence_amended (repoLangs : Finset String) :
    ∀ c ∈ getSkillCategories repoLangs, ∀ k ∈ c.skills,
      k.fromRepo = evidencedRule repoLangs k.name := by
  intro c hc k hk
  fin_cases hc <;> fin_cases hk <;> simp [evidencedRule]

/-- Witness for the amended C1: the `Git` entry of the Development Tools
category is evidenced under the empty detected set. -/
theorem skillEvidence_amended_witness :
    (((getSkillCategories ∅).get ⟨3, by decide⟩).skills.get ⟨0, by decide⟩).fromRepo =
      evidencedRule ∅
        (((getSkillCategories ∅).get ⟨3, by decide⟩).skills.get ⟨0, by decide⟩).name :=
  skillEvidence_amended ∅ _ (List.get_mem _ _ _) _ (List.get_mem _ _ _)

/-! ## Claims about the fetch cycle and loading state -/

/-- C2 counterexample: on the very first load, with both fetches rejecting
and no prior data, the `finally` clause still sets `loading` to `false`, so
the application does not remain on the loading screen — it renders the main
page with the default empty data. -/
theorem firstLoad_failure_leaves_loading :
    (fetchGitHubData initialState (Except.error "network error")
        (Except.error "network error")).loading = false ∧
      render (fetchGitHubData initialState (Except.error "network error")
        (Except.error "network error")) ≠ Screen.loadingScreen := by
  decide

/-- C2 amended: if any fetch of the first cycle rejects, the failure is
swallowed (the render function has no error output at all), but the
`finally` clause sets `loading` to `false`, so the app leaves the loading
state and renders the main screen with an empty repository list (and
whatever profile data was stored before the failure). -/
theorem firstLoad_failure_renders_main (userResult : Except String GitHubUser)
    (reposResult : Except String (List Repository))
    (h : userResult.isOk = false ∨ reposResult.isOk = false) :
    (fetchGitHubData initialState userResult reposResult).loading = false ∧
      (fetchGitHubData initialState userResult reposResult).repositories = [] ∧
      render (fetchGitHubData initialState userResult reposResult) =
        Screen.mainScreen (fetchGitHubData initialState userResult reposResult).user
          [] := by
  rcases userResult with e | u
  · simp [fetchGitHubData, initialState, render]
  · rcases reposResult with e | rs
    · simp [fetchGitHubData, initialState, render]
    · simp [Except.isOk, Except.toBool] at h

/-- Witness for the amended C2: a concrete first cycle whose profile fetch
rejects. -/
theorem firstLoad_failure_renders_main_witness :
    (fetchGitHubData initialState (Except.error "HTTP 403") (Except.ok [])).loading
        = false ∧
      (fetchGitHubData initialState (Except.error "HTTP 403")
        (Except.ok [])).repositories = [] ∧
      render (fetchGitHubData initialState (Except.error "HTTP 403") (Except.ok [])) =
        Screen.mainScreen
          (fetchGitHubData initialState (Except.error "HTTP 403") (Except.ok [])).user
          [] :=
  firstLoad_failure_renders_main _ _ (Or.inl rfl)

/-- C9 counterexample: in the successful fetch cycle, the repository request
is never issued before the profile fetch has resolved — the two network
calls are not in flight concurrently, so there is an ordering guarantee. -/
theorem fetches_not_concurrent :
    ¬ [FetchEvent.requestRepos, FetchEvent.resolveUser] <+ fetchTrace true true := by
  decide

/-- C9 amended: within one fetch cycle the two fetches are sequential, not
concurrent: whenever the repository request is issued at all, the profile
fetch has already resolved (and the user state been stored) before it, so
the profile fetch always settles first. -/
theorem profile_resolves_before_repos_request (userOk reposOk : Bool)
    (h : FetchEvent.requestRepos ∈ fetchTrace userOk reposOk) :
    [FetchEvent.resolveUser, FetchEvent.requestRepos] <+ fetchTrace userOk reposOk := by
  cases userOk <;> cases reposOk <;> revert h <;> decide

/-- Witness for the amended C9: the fully successful cycle. -/
theorem profile_resolves_before_repos_request_witness :
    [FetchEvent.resolveUser, FetchEvent.requestRepos] <+ fetchTrace true true :=
  profile_resolves_before_repos_request true true (by decide)
